import Mathlib

/-!
Verification of the geo-intersection filter/join core and the measure output
binder of the aresdb query engine (query/geo_intersects.cu and
query/measure_transform.cu).

The embedding models the host-visible semantics of the two translation
units: the input binder's control flow, the filter context's remove_if
compaction over the index zip, the join context's transform_if projection
into the dimension buffers, the kind dispatch of the measure output binder,
and the CGo result envelope that the entry points populate.  Device buffers
are modelled as lists or as functions from positions; thrust algorithms are
modelled by their documented result (stable remove_if, elementwise
transform_if).  The content of the predicate bitset produced by the geo
intersection pass depends on geometry code outside the two translation
units, so it enters the model as a parameter (its decoded per-row value),
while the fact that the pass is issued is tracked explicitly.
-/

namespace AresGeo

/-- RecordID identifies a row in an upstream (dimension table) batch as a
pair of batch id and position, mirroring the engine's RecordID struct. -/
structure RecordID where
  batchID : Int
  index : Nat
deriving DecidableEq, Repr

instance : Inhabited RecordID := ⟨⟨0, 0⟩⟩

/-- Modelled from the spec: the engine's data type tags (the DataType enum
is declared in a header outside src/).  The spec names the supported
measure scalar set int32, uint32, float32, int64, float64 and a
distinguished geo-point type; the engine carries further tags for other
column types. -/
inductive DataType
  | Bool
  | Int8
  | Uint8
  | Int16
  | Uint16
  | Int32
  | Uint32
  | Int64
  | Uint64
  | Float32
  | Float64
  | UUID
  | GeoPoint
  | GeoShape
deriving DecidableEq, Repr

/-- View over one decoded column batch as inspected by the geo binder: the
data type tag, whether the base pointer is null, and the offset fields the
column iterator is built from (the offsets feed only the unmodelled
point-reading iterator; the binder's control flow inspects the first two
fields). -/
structure VectorPartySlice where
  DataType : DataType
  BasePtrIsNull : Bool
  NullsOffset : Nat
  ValuesOffset : Nat
  StartingIndex : Nat
  Length : Nat
deriving DecidableEq, Repr

/-- Foreign (dimension table) column input header as inspected by the geo
binder: the data type tag plus the join bookkeeping fields that feed the
unmodelled foreign table iterators. -/
structure ForeignColumnVector where
  DataType : DataType
  NumBatches : Int
  BaseBatchID : Int
  NumRecordsInLastBatch : Int
  HasDefault : Bool
deriving DecidableEq, Repr

/-- Tagged input descriptor: a direct vector party slice, a foreign column,
or any other representation tag, mirroring the InputVector union whose Type
field GeoInputVectorBinder::bind dispatches on. -/
inductive InputVector
  | vp (slice : VectorPartySlice)
  | foreignVP (column : ForeignColumnVector)
  | otherInput (tag : Nat)
deriving DecidableEq, Repr

/-- Shape batch metadata: total point count across all shapes and the
number of predicate bitset words per row. -/
structure GeoShapeBatch where
  TotalNumPoints : Nat
  TotalWords : Nat
deriving DecidableEq, Repr

/-- Result envelope of the cross-language call boundary: a success payload
and an error string slot (CGoCallResHandle). -/
structure CGoCallResHandle where
  res : Int
  pStrErr : Option String
deriving DecidableEq, Repr

/-- Modelled from the spec: GeoPredicateIterator (declared in a header
outside src/) decodes the packed per-(row, shape) predicate bitset into,
per row, a signed containment result: negative when the row is contained
in no shape, and otherwise identifying the (first) containing shape. -/
def geoPredicateDecode (bits : Nat → Nat → Bool) (numShapes : Nat)
    (row : Nat) : Int :=
  match (List.range numShapes).find? (fun s => bits row s) with
  | some s => (s : Int)
  | none => -1

/-- GeoRemoveFilter functor from the source: a zipped row whose first
component is the row position key is removed exactly when
inOrOut == (predicates[key] < 0). -/
def GeoRemoveFilter (predicates : Nat → Int) (inOrOut : Bool)
    (key : Nat) : Bool :=
  inOrOut == decide (predicates key < 0)

/-- One element of the index zip: the row position key, the index vector
entry at that position, and the entries of the configured foreign RecordID
vectors at the same position. -/
structure ZipEntry where
  key : Nat
  idx : Nat
  fks : List RecordID
deriving DecidableEq, Repr

/-- Modelled from the spec: IndexZipIteratorMaker (declared in a header
outside src/) zips, per row position, the predicate key, the index vector
element and the elements of the first numForeignTables foreign RecordID
vectors, selected by compile-time specialization on the arity. -/
def makeIndexZip (numForeignTables : Nat) (indexVector : List Nat)
    (recordIDVectors : List (List RecordID)) : List ZipEntry :=
  (List.range indexVector.length).map fun i =>
    { key := i
      idx := indexVector.getD i 0
      fks := (List.range numForeignTables).map fun k =>
        (recordIDVectors.getD k []).getD i default }

/-- GeoIntersectionContext::executeRemoveIf: thrust::remove_if over the
index zip with GeoRemoveFilter.  Survivors are stably compacted to the
front and the new row count is returned; the unspecified tail beyond the
new end is not part of the model. -/
def executeRemoveIf (predicates : Nat → Int) (inOrOut : Bool)
    (zipped : List ZipEntry) : Nat × List ZipEntry :=
  let survivors := zipped.filter fun z =>
    ! GeoRemoveFilter predicates inOrOut z.key
  (survivors.length, survivors)

/-- Row positions kept by the filter: those whose zip entry GeoRemoveFilter
does not remove. -/
def keepPositions (predicates : Nat → Int) (inOrOut : Bool)
    (len : Nat) : List Nat :=
  (List.range len).filter fun i => ! GeoRemoveFilter predicates inOrOut i

/-- Outcome of GeoIntersectionContext::run: whether the geo intersection
pass (calculateBatchIntersection, which writes the caller's predicate
bitset scratch) was issued, the returned row count or the thrown error
message, and the index and foreign RecordID vectors after the call
(compacted survivor prefixes on success, untouched on error). -/
structure FilterRunOutcome where
  geoPassIssued : Bool
  res : Except String Int
  indexVectorOut : List Nat
  foreignOut : List (List RecordID)
deriving Repr

/-- GeoIntersectionContext::run: it first issues calculateBatchIntersection
(the geo pass; predicates is the decoded post-pass content of the
caller-owned output predicate bitset), and only then dispatches on
numForeignTables 0..8 to executeRemoveIf over the corresponding index zip,
throwing invalid_argument for any other arity. -/
def GeoIntersectionContextRun (predicates : Nat → Int) (inOrOut : Bool)
    (indexVector : List Nat) (numForeignTables : Int)
    (recordIDVectors : List (List RecordID)) : FilterRunOutcome :=
  if 0 ≤ numForeignTables ∧ numForeignTables ≤ 8 then
    let compacted := executeRemoveIf predicates inOrOut
      (makeIndexZip numForeignTables.toNat indexVector recordIDVectors)
    { geoPassIssued := true
      res := Except.ok (compacted.1 : Int)
      indexVectorOut := compacted.2.map ZipEntry.idx
      foreignOut := (List.range numForeignTables.toNat).map fun k =>
        compacted.2.map fun z => z.fks.getD k default }
  else
    { geoPassIssued := true
      res := Except.error "only support up to 8 foreign tables"
      indexVectorOut := indexVector
      foreignOut := recordIDVectors }

/-- Outcome of GeoInputVectorBinder::bind composed with the filter context
run: whether context.run was entered, whether the geo pass was issued, the
bind result or thrown message, and the vectors after the call. -/
structure FilterBindOutcome where
  contextRan : Bool
  geoPassIssued : Bool
  res : Except String Int
  indexVectorOut : List Nat
  foreignOut : List (List RecordID)
deriving Repr

/-- GeoInputVectorBinder::bind for the filter context: checks the input
representation and data type in source order, short-circuits with zero on
a null base pointer, and otherwise hands the constructed iterator to
GeoIntersectionContext::run.  Errors are the thrown invalid_argument
messages (the source interpolates a line number into the last one). -/
def geoFilterBind (predicates : Nat → Int) (inOrOut : Bool)
    (input : InputVector) (indexVector : List Nat) (numForeignTables : Int)
    (recordIDVectors : List (List RecordID)) : FilterBindOutcome :=
  match input with
  | InputVector.vp slice =>
    if slice.DataType ≠ DataType.GeoPoint then
      { contextRan := false, geoPassIssued := false
        res := Except.error
          "only geo point column are allowed in geo_intersects"
        indexVectorOut := indexVector, foreignOut := recordIDVectors }
    else if slice.BasePtrIsNull then
      { contextRan := false, geoPassIssued := false
        res := Except.ok 0
        indexVectorOut := indexVector, foreignOut := recordIDVectors }
    else
      let r := GeoIntersectionContextRun predicates inOrOut indexVector
        numForeignTables recordIDVectors
      { contextRan := true, geoPassIssued := r.geoPassIssued, res := r.res
        indexVectorOut := r.indexVectorOut, foreignOut := r.foreignOut }
  | InputVector.foreignVP column =>
    if column.DataType ≠ DataType.GeoPoint then
      { contextRan := false, geoPassIssued := false
        res := Except.error
          "only geo point column are allowed in geo_intersects"
        indexVectorOut := indexVector, foreignOut := recordIDVectors }
    else
      let r := GeoIntersectionContextRun predicates inOrOut indexVector
        numForeignTables recordIDVectors
      { contextRan := true, geoPassIssued := r.geoPassIssued, res := r.res
        indexVectorOut := r.indexVectorOut, foreignOut := r.foreignOut }
  | InputVector.otherInput _ =>
      { contextRan := false, geoPassIssued := false
        res := Except.error
          "Unsupported data type for geo intersection contexts"
        indexVectorOut := indexVector, foreignOut := recordIDVectors }

/-- Outcome of a whole GeoBatchIntersects call: the result envelope,
whether the intersection context was entered, whether the geo pass was
issued, and the vectors after the call. -/
structure CallOutcome where
  handle : CGoCallResHandle
  contextRan : Bool
  geoPassIssued : Bool
  indexVectorOut : List Nat
  foreignOut : List (List RecordID)
deriving Repr

/-- GeoBatchIntersects entry point: constructs the filter context and the
binder, stores a successful bind result in the envelope payload, and
converts a thrown exception into the envelope error slot (the payload then
keeps its zero initialisation). -/
def GeoBatchIntersects (predicates : Nat → Int) (inOrOut : Bool)
    (input : InputVector) (indexVector : List Nat) (numForeignTables : Int)
    (recordIDVectors : List (List RecordID)) : CallOutcome :=
  let b := geoFilterBind predicates inOrOut input indexVector
    numForeignTables recordIDVectors
  { handle :=
      match b.res with
      | Except.ok cnt => { res := cnt, pStrErr := none }
      | Except.error msg => { res := 0, pStrErr := some msg }
    contextRan := b.contextRan
    geoPassIssued := b.geoPassIssued
    indexVectorOut := b.indexVectorOut
    foreignOut := b.foreignOut }

/-- Inputs for which GeoInputVectorBinder::bind reaches context.run: a
geo-point vector party slice with a non-null base pointer, or a geo-point
foreign column. -/
def reachesContext (input : InputVector) : Bool :=
  match input with
  | InputVector.vp slice =>
      slice.DataType == DataType.GeoPoint && ! slice.BasePtrIsNull
  | InputVector.foreignVP column => column.DataType == DataType.GeoPoint
  | InputVector.otherInput _ => false

/-- Modelled from the spec: the dimension output iterator (declared in a
header outside src/) writes, at row position i, the first tuple component
into the dimension value buffer and the second into the null buffer. -/
def dimensionOutputWrite (bufs : (Nat → Nat) × (Nat → Nat)) (i : Nat)
    (v : Nat × Nat) : (Nat → Nat) × (Nat → Nat) :=
  (fun j => if j = i then v.1 else bufs.1 j,
   fun j => if j = i then v.2 else bufs.2 j)

/-- Functor is_non_negative from the source. -/
def is_non_negative (val : Int) : Bool := decide (0 ≤ val)

/-- The join projection's thrust::transform_if: for each row position below
the index vector length whose stencil (the decoded predicate) is
non-negative, the identity image of the zipped (predicate value narrowed to
a byte, constant 1) tuple is written through the dimension output iterator;
all other positions are skipped. -/
def joinTransformIf (predicates : Nat → Int) (len : Nat)
    (dimValues dimNulls : Nat → Nat) : (Nat → Nat) × (Nat → Nat) :=
  (List.range len).foldl
    (fun bufs i =>
      if is_non_negative (predicates i) then
        dimensionOutputWrite bufs i ((predicates i).toNat % 256, 1)
      else bufs)
    (dimValues, dimNulls)

/-- Outcome of GeoIntersectionJoinContext::run: the polarity passed to the
geo pass, whether the pass was issued, the returned value, the dimension
value and null buffers after the call, and the index vector (which the
join path never touches). -/
structure JoinRunOutcome where
  geoPassInOrOut : Bool
  geoPassIssued : Bool
  res : Int
  dimValues : Nat → Nat
  dimNulls : Nat → Nat
  indexVectorOut : List Nat

/-- GeoIntersectionJoinContext::run: issues the geo pass with the polarity
argument fixed to true (contained), then runs the transform_if projection
over the decoded predicate, removes no rows and returns 0. -/
def GeoIntersectionJoinContextRun (predicates : Nat → Int)
    (indexVector : List Nat) (dimValues dimNulls : Nat → Nat) :
    JoinRunOutcome :=
  let bufs := joinTransformIf predicates indexVector.length dimValues dimNulls
  { geoPassInOrOut := true
    geoPassIssued := true
    res := 0
    dimValues := bufs.1
    dimNulls := bufs.2
    indexVectorOut := indexVector }

/-- Measure output descriptor: the scalar data type tag and the
aggregation function tag (whose semantics live outside this layer). -/
structure MeasureOutputVector where
  DataType : DataType
  AggFunc : Nat
deriving DecidableEq, Repr

/-- OutputVectorBinder::transformMeasureOutput: dispatches on the output
data type to a typed measure output iterator and delegates to transform
(which lives outside src/; its per-type row count result is abstracted as
transformFn), throwing invalid_argument for any unsupported tag.  The
NInput template arity (instantiated for 1 and 2) does not affect the
dispatch. -/
def transformMeasureOutput (NInput : Nat) (transformFn : DataType → Int)
    (output : MeasureOutputVector) : Except String Int :=
  match NInput, output.DataType with
  | _, DataType.Int32 => Except.ok (transformFn DataType.Int32)
  | _, DataType.Uint32 => Except.ok (transformFn DataType.Uint32)
  | _, DataType.Float32 => Except.ok (transformFn DataType.Float32)
  | _, DataType.Int64 => Except.ok (transformFn DataType.Int64)
  | _, DataType.Float64 => Except.ok (transformFn DataType.Float64)
  | _, _ => Except.error "Unsupported data type for MeasureOutput"

/-- Concrete geo-point slice with a null base pointer, used at concrete
inputs. -/
def nullBaseGeoSlice : VectorPartySlice :=
  { DataType := DataType.GeoPoint, BasePtrIsNull := true, NullsOffset := 0,
    ValuesOffset := 0, StartingIndex := 0, Length := 0 }

/-- Concrete geo-point slice with a non-null base pointer, used at concrete
inputs. -/
def liveGeoSlice : VectorPartySlice :=
  { DataType := DataType.GeoPoint, BasePtrIsNull := false, NullsOffset := 0,
    ValuesOffset := 0, StartingIndex := 0, Length := 3 }

/-- Concrete int32 direct slice (with a null base pointer), used at
concrete inputs. -/
def int32Slice : VectorPartySlice :=
  { DataType := DataType.Int32, BasePtrIsNull := true, NullsOffset := 0,
    ValuesOffset := 0, StartingIndex := 0, Length := 3 }

/-- Concrete int32 foreign column, used at concrete inputs. -/
def int32ForeignColumn : ForeignColumnVector :=
  { DataType := DataType.Int32, NumBatches := 1, BaseBatchID := 0,
    NumRecordsInLastBatch := 1, HasDefault := false }

/-- Supported measure output scalar set named by the spec. -/
def measureSupported (dt : DataType) : Bool :=
  match dt with
  | DataType.Int32 | DataType.Uint32 | DataType.Float32
  | DataType.Int64 | DataType.Float64 => true
  | _ => false

lemma filter_map_comm {α β : Type} (f : α → β) (p : β → Bool)
    (l : List α) : (l.map f).filter p = (l.filter fun a => p (f a)).map f := by
  simpa [Function.comp] using List.filter_map f l (p := p)

lemma not_beq_right (a b : Bool) : (!(a == b)) = (a == !b) := by
  cases a <;> cases b <;> rfl

lemma getD_map_range {α : Type} (g : Nat → α) (d : α) (n k : Nat)
    (hk : k < n) : ((List.range n).map g).getD k d = g k := by
  rw [List.getD_eq_getElem?_getD, List.getElem?_map]
  simp [List.getElem?_range, hk]

lemma keepPositions_eq_spec (P : Nat → Int) (io : Bool) (len : Nat) :
    keepPositions P io len =
      (List.range len).filter fun i => io == ! decide (P i < 0) := by
  unfold keepPositions
  refine List.filter_congr fun i _ => ?_
  unfold GeoRemoveFilter
  exact not_beq_right io (decide (P i < 0))

lemma geoRun_ok_eq (P : Nat → Int) (io : Bool) (iv : List Nat) (n : Int)
    (rvs : List (List RecordID)) (h0 : 0 ≤ n) (h8 : n ≤ 8) :
    GeoIntersectionContextRun P io iv n rvs =
      { geoPassIssued := true
        res := Except.ok ((keepPositions P io iv.length).length : Int)
        indexVectorOut := (keepPositions P io iv.length).map
          (fun i => iv.getD i 0)
        foreignOut := (List.range n.toNat).map fun k =>
          (keepPositions P io iv.length).map fun i =>
            (rvs.getD k []).getD i default } := by
  have hsurv : (makeIndexZip n.toNat iv rvs).filter
      (fun z => ! GeoRemoveFilter P io z.key) =
      (keepPositions P io iv.length).map (fun i =>
        ({ key := i, idx := iv.getD i 0
           fks := (List.range n.toNat).map fun k =>
             (rvs.getD k []).getD i default } : ZipEntry)) := by
    unfold makeIndexZip keepPositions
    rw [filter_map_comm]
  unfold GeoIntersectionContextRun executeRemoveIf
  rw [if_pos ⟨h0, h8⟩]
  simp only [hsurv, List.map_map, List.length_map]
  refine congrArg₂ (fun r f => FilterRunOutcome.mk true r
      ((keepPositions P io iv.length).map fun i => iv.getD i 0) f) rfl ?_
  refine List.map_congr_left fun k hk => ?_
  refine List.map_congr_left fun i _ => ?_
  exact getD_map_range _ default _ k (List.mem_range.mp hk)

/-- C1: for every index vector, predicate bitset and polarity flag, the
filter path compacts the index vector so that the surviving entries are
exactly those at original positions i with inOrOut == (predicates i < 0 is
false), in original relative order, and the returned value is the new row
count. -/
theorem geo_filter_compaction_correct (P : Nat → Int) (io : Bool)
    (iv : List Nat) (n : Int) (rvs : List (List RecordID))
    (h0 : 0 ≤ n) (h8 : n ≤ 8) :
    (GeoIntersectionContextRun P io iv n rvs).indexVectorOut =
      ((List.range iv.length).filter fun i =>
        io == ! decide (P i < 0)).map (fun i => iv.getD i 0) ∧
    (GeoIntersectionContextRun P io iv n rvs).res =
      Except.ok ((((List.range iv.length).filter fun i =>
        io == ! decide (P i < 0)).length : Nat) : Int) := by
  rw [geoRun_ok_eq P io iv n rvs h0 h8, ← keepPositions_eq_spec]
  exact ⟨rfl, rfl⟩

/-- Witness for C1 at a concrete input: rows 0 and 2 are kept (their
predicate is non-negative and inOrOut is true), row 1 is removed. -/
theorem geo_filter_compaction_correct_witness :
    (GeoIntersectionContextRun (fun i => if i = 1 then -1 else 0) true
      [10, 20, 30] 0 []).indexVectorOut = [10, 30] := by
  have h := (geo_filter_compaction_correct
      (fun i => if i = 1 then -1 else 0) true [10, 20, 30] 0 []
      (by decide) (by decide)).1
  rw [h]
  decide

/-- C2: after a filter call configured with numForeignTables foreign
RecordID vectors (between 0 and 8), every configured foreign vector is
compacted to the same length as the compacted index vector, and both are
images of the same survivor position list, so the j-th surviving foreign
element and the j-th surviving index element come from the same original
row. -/
theorem geo_filter_lockstep (P : Nat → Int) (io : Bool) (iv : List Nat)
    (n : Int) (rvs : List (List RecordID)) (k : Nat)
    (h0 : 0 ≤ n) (h8 : n ≤ 8) (hk : k < n.toNat) :
    ((GeoIntersectionContextRun P io iv n rvs).foreignOut.getD k []).length =
      (GeoIntersectionContextRun P io iv n rvs).indexVectorOut.length ∧
    (GeoIntersectionContextRun P io iv n rvs).foreignOut.getD k [] =
      (keepPositions P io iv.length).map
        (fun i => (rvs.getD k []).getD i default) ∧
    (GeoIntersectionContextRun P io iv n rvs).indexVectorOut =
      (keepPositions P io iv.length).map (fun i => iv.getD i 0) := by
  rw [geoRun_ok_eq P io iv n rvs h0 h8]
  have hget : ((List.range n.toNat).map fun j =>
      (keepPositions P io iv.length).map fun i =>
        (rvs.getD j []).getD i default).getD k [] =
      (keepPositions P io iv.length).map fun i =>
        (rvs.getD k []).getD i default :=
    getD_map_range _ [] n.toNat k hk
  refine ⟨?_, ?_, rfl⟩
  · simp only [hget, List.length_map]
  · exact hget

/-- Witness for C2: two foreign vectors compact in lockstep with the
index vector. -/
theorem geo_filter_lockstep_witness :
    ((GeoIntersectionContextRun (fun i => if i = 1 then -1 else 0) true
        [5, 6, 7] 2 [[⟨1, 10⟩, ⟨1, 11⟩, ⟨1, 12⟩],
          [⟨2, 20⟩, ⟨2, 21⟩, ⟨2, 22⟩]]).foreignOut.getD 0 []).length =
      (GeoIntersectionContextRun (fun i => if i = 1 then -1 else 0) true
        [5, 6, 7] 2 [[⟨1, 10⟩, ⟨1, 11⟩, ⟨1, 12⟩],
          [⟨2, 20⟩, ⟨2, 21⟩, ⟨2, 22⟩]]).indexVectorOut.length :=
  (geo_filter_lockstep (fun i => if i = 1 then -1 else 0) true [5, 6, 7] 2
    [[⟨1, 10⟩, ⟨1, 11⟩, ⟨1, 12⟩], [⟨2, 20⟩, ⟨2, 21⟩, ⟨2, 22⟩]] 0
    (by decide) (by decide) (by decide)).1

lemma joinTransformIf_spec (P : Nat → Int) (len : Nat)
    (dv dn : Nat → Nat) (i : Nat) :
    (joinTransformIf P len dv dn).1 i =
      (if i < len ∧ 0 ≤ P i then (P i).toNat % 256 else dv i) ∧
    (joinTransformIf P len dv dn).2 i =
      (if i < len ∧ 0 ≤ P i then 1 else dn i) := by
  induction len with
  | zero => simp [joinTransformIf]
  | succ m ih =>
    have hstep : joinTransformIf P (m + 1) dv dn =
        (if is_non_negative (P m) then
          dimensionOutputWrite (joinTransformIf P m dv dn) m
            ((P m).toNat % 256, 1)
        else joinTransformIf P m dv dn) := by
      unfold joinTransformIf
      rw [List.range_succ, List.foldl_append]
      rfl
    rcases ih with ⟨ih1, ih2⟩
    by_cases hneg : (0 : Int) ≤ P m
    · have hb : is_non_negative (P m) = true := by
        simp [is_non_negative, hneg]
      rw [hstep, if_pos hb]
      by_cases hi : i = m
      · subst hi
        constructor
        · simp [dimensionOutputWrite, hneg, Nat.lt_succ_self]
        · simp [dimensionOutputWrite, hneg, Nat.lt_succ_self]
      · have hw1 : (dimensionOutputWrite (joinTransformIf P m dv dn) m
            ((P m).toNat % 256, 1)).1 i = (joinTransformIf P m dv dn).1 i := by
          simp [dimensionOutputWrite, hi]
        have hw2 : (dimensionOutputWrite (joinTransformIf P m dv dn) m
            ((P m).toNat % 256, 1)).2 i = (joinTransformIf P m dv dn).2 i := by
          simp [dimensionOutputWrite, hi]
        have h1 : (i < m ∧ 0 ≤ P i) ↔ (i < m + 1 ∧ 0 ≤ P i) := by
          constructor
          · rintro ⟨ha, hbb⟩
            exact ⟨by omega, hbb⟩
          · rintro ⟨ha, hbb⟩
            exact ⟨by omega, hbb⟩
        constructor
        · rw [hw1, ih1]
          exact if_congr h1 rfl rfl
        · rw [hw2, ih2]
          exact if_congr h1 rfl rfl
    · have hb : is_non_negative (P m) = false := by
        simp [is_non_negative, hneg]
      rw [hstep, if_neg (by simp [hb])]
      have h1 : (i < m ∧ 0 ≤ P i) ↔ (i < m + 1 ∧ 0 ≤ P i) := by
        constructor
        · rintro ⟨ha, hbb⟩
          exact ⟨by omega, hbb⟩
        · rintro ⟨ha, hbb⟩
          refine ⟨?_, hbb⟩
          by_cases h : i = m
          · exact absurd (h ▸ hbb) hneg
          · omega
      constructor
      · rw [ih1]
        exact if_congr h1 rfl rfl
      · rw [ih2]
        exact if_congr h1 rfl rfl

/-- C3 (amended): the join run forces the geo pass polarity to contained,
returns 0, removes no rows, and at every row position below the index
vector length whose decoded predicate is non-negative writes that
predicate value narrowed to a byte (under the spec's decode, the first
containing shape's index) as the dimension value while marking the null
flag 1 (not-null); every other position of both buffers is untouched. -/
theorem geo_join_projection (P : Nat → Int) (iv : List Nat)
    (dv dn : Nat → Nat) :
    (GeoIntersectionJoinContextRun P iv dv dn).geoPassInOrOut = true ∧
    (GeoIntersectionJoinContextRun P iv dv dn).res = 0 ∧
    (GeoIntersectionJoinContextRun P iv dv dn).indexVectorOut = iv ∧
    (∀ i, (GeoIntersectionJoinContextRun P iv dv dn).dimValues i =
      (if i < iv.length ∧ 0 ≤ P i then (P i).toNat % 256 else dv i)) ∧
    (∀ i, (GeoIntersectionJoinContextRun P iv dv dn).dimNulls i =
      (if i < iv.length ∧ 0 ≤ P i then 1 else dn i)) := by
  refine ⟨rfl, rfl, rfl, ?_, ?_⟩
  · exact fun i => (joinTransformIf_spec P iv.length dv dn i).1
  · exact fun i => (joinTransformIf_spec P iv.length dv dn i).2

/-- C3 counterexample: with a predicate bitset whose row 0 is contained
only in shape 2, the decoded predicate value is 2, and the join run writes
the dimension value 2 at row 0, which is neither 0 nor 1, so the written
dimension value is not a boolean. -/
theorem geo_join_projection_not_boolean :
    geoPredicateDecode (fun _ s => s == 2) 3 0 = 2 ∧
    (GeoIntersectionJoinContextRun (geoPredicateDecode (fun _ s => s == 2) 3)
      [7] (fun _ => 0) (fun _ => 0)).dimValues 0 ≠ 0 ∧
    (GeoIntersectionJoinContextRun (geoPredicateDecode (fun _ s => s == 2) 3)
      [7] (fun _ => 0) (fun _ => 0)).dimValues 0 ≠ 1 := by
  decide

lemma geoRun_geoPassIssued (P : Nat → Int) (io : Bool) (iv : List Nat)
    (n : Int) (rvs : List (List RecordID)) :
    (GeoIntersectionContextRun P io iv n rvs).geoPassIssued = true := by
  unfold GeoIntersectionContextRun
  split_ifs <;> rfl

lemma geoRun_err_eq (P : Nat → Int) (io : Bool) (iv : List Nat) (n : Int)
    (rvs : List (List RecordID)) (h : ¬ (0 ≤ n ∧ n ≤ 8)) :
    GeoIntersectionContextRun P io iv n rvs =
      { geoPassIssued := true
        res := Except.error "only support up to 8 foreign tables"
        indexVectorOut := iv, foreignOut := rvs } := by
  unfold GeoIntersectionContextRun
  rw [if_neg h]

lemma geoBind_cases (P : Nat → Int) (io : Bool) (input : InputVector)
    (iv : List Nat) (n : Int) (rvs : List (List RecordID)) :
    (∃ msg, (msg = "only geo point column are allowed in geo_intersects" ∨
        msg = "Unsupported data type for geo intersection contexts") ∧
      geoFilterBind P io input iv n rvs =
        { contextRan := false, geoPassIssued := false
          res := Except.error msg
          indexVectorOut := iv, foreignOut := rvs }) ∨
    (geoFilterBind P io input iv n rvs =
        { contextRan := false, geoPassIssued := false, res := Except.ok 0
          indexVectorOut := iv, foreignOut := rvs }) ∨
    (geoFilterBind P io input iv n rvs =
        { contextRan := true, geoPassIssued := true
          res := (GeoIntersectionContextRun P io iv n rvs).res
          indexVectorOut :=
            (GeoIntersectionContextRun P io iv n rvs).indexVectorOut
          foreignOut :=
            (GeoIntersectionContextRun P io iv n rvs).foreignOut }) := by
  cases input with
  | vp slice =>
    simp only [geoFilterBind]
    split_ifs with h1 h2
    · exact Or.inl ⟨_, Or.inl rfl, rfl⟩
    · exact Or.inr (Or.inl rfl)
    · refine Or.inr (Or.inr ?_)
      rw [geoRun_geoPassIssued]
  | foreignVP column =>
    simp only [geoFilterBind]
    split_ifs with h1
    · exact Or.inl ⟨_, Or.inl rfl, rfl⟩
    · refine Or.inr (Or.inr ?_)
      rw [geoRun_geoPassIssued]
  | otherInput t =>
    exact Or.inl ⟨_, Or.inr rfl, rfl⟩

lemma geoRun_error_vectors (P : Nat → Int) (io : Bool) (iv : List Nat)
    (n : Int) (rvs : List (List RecordID)) (msg : String)
    (h : (GeoIntersectionContextRun P io iv n rvs).res = Except.error msg) :
    (GeoIntersectionContextRun P io iv n rvs).indexVectorOut = iv ∧
    (GeoIntersectionContextRun P io iv n rvs).foreignOut = rvs := by
  by_cases hc : 0 ≤ n ∧ n ≤ 8
  · rw [geoRun_ok_eq P io iv n rvs hc.1 hc.2] at h
    exact absurd h (by simp)
  · rw [geoRun_err_eq P io iv n rvs hc]
    exact ⟨rfl, rfl⟩

/-- C4 (amended): a GeoBatchIntersects call with numForeignTables above 8
that reaches the intersection context (a geo-point direct input with a
non-null base pointer, or a geo-point foreign input) stores the
invalid-argument arity error in the result envelope, with the payload left
at its zero initialisation and the index vector and all foreign RecordID
vectors unmodified; a null-base-pointer geo-point direct input instead
short-circuits to a successful zero row count before the arity check. -/
theorem geo_arity_error (P : Nat → Int) (io : Bool) (input : InputVector)
    (iv : List Nat) (n : Int) (rvs : List (List RecordID))
    (hr : reachesContext input = true) (h9 : 8 < n) :
    (GeoBatchIntersects P io input iv n rvs).handle =
      { res := 0, pStrErr := some "only support up to 8 foreign tables" } ∧
    (GeoBatchIntersects P io input iv n rvs).indexVectorOut = iv ∧
    (GeoBatchIntersects P io input iv n rvs).foreignOut = rvs := by
  have hcond : ¬ (0 ≤ n ∧ n ≤ 8) := by omega
  have hrun := geoRun_err_eq P io iv n rvs hcond
  cases input with
  | vp slice =>
    simp only [reachesContext, Bool.and_eq_true, beq_iff_eq,
      Bool.not_eq_true'] at hr
    rcases hr with ⟨hdt, hbp⟩
    simp only [GeoBatchIntersects, geoFilterBind, hdt, hbp]
    simp [hrun]
  | foreignVP column =>
    simp only [reachesContext, beq_iff_eq] at hr
    simp only [GeoBatchIntersects, geoFilterBind, hr]
    simp [hrun]
  | otherInput t =>
    simp [reachesContext] at hr

/-- Witness for C4 (amended): a geo-point direct input with nine foreign
tables yields the arity error in the envelope. -/
theorem geo_arity_error_witness :
    (GeoBatchIntersects (fun _ => 0) true
      (InputVector.vp liveGeoSlice)
      [1, 2] 9 []).handle =
      { res := 0, pStrErr := some "only support up to 8 foreign tables" } :=
  (geo_arity_error (fun _ => 0) true
    (InputVector.vp liveGeoSlice)
    [1, 2] 9 [] (by decide) (by decide)).1

/-- C4 counterexample: with numForeignTables = 9 but a geo-point direct
input whose base pointer is null, the call short-circuits in the binder
and returns a successful zero row count with no error in the envelope, so
not every call with numForeignTables above 8 returns an error. -/
theorem geo_arity_null_baseptr_counterexample :
    (GeoBatchIntersects (fun _ => 0) true
      (InputVector.vp nullBaseGeoSlice)
      [1, 2] 9 []).handle = { res := 0, pStrErr := none } := by
  decide

lemma geoRun_error_msg (P : Nat → Int) (io : Bool) (iv : List Nat)
    (n : Int) (rvs : List (List RecordID)) (msg : String)
    (h : (GeoIntersectionContextRun P io iv n rvs).res = Except.error msg) :
    msg = "only support up to 8 foreign tables" := by
  by_cases hc : 0 ≤ n ∧ n ≤ 8
  · rw [geoRun_ok_eq P io iv n rvs hc.1 hc.2] at h
    exact absurd h (by simp)
  · rw [geoRun_err_eq P io iv n rvs hc] at h
    simpa using h.symm

/-- C5 (amended): whenever a GeoBatchIntersects call ends with an error in
the envelope, the index vector and the foreign RecordID vectors are
unmodified; a type or representation error thrown by the binder means the
intersection context never ran and no geo pass (device work) was issued;
the arity error for numForeignTables outside 0..8, however, is raised only
after the geo intersection pass has been issued (writing the caller-owned
predicate bitset scratch). -/
theorem geo_error_sequencing (P : Nat → Int) (io : Bool)
    (input : InputVector) (iv : List Nat) (n : Int)
    (rvs : List (List RecordID)) :
    ((GeoBatchIntersects P io input iv n rvs).handle.pStrErr ≠ none →
      (GeoBatchIntersects P io input iv n rvs).indexVectorOut = iv ∧
      (GeoBatchIntersects P io input iv n rvs).foreignOut = rvs) ∧
    (((GeoBatchIntersects P io input iv n rvs).handle.pStrErr =
        some "only geo point column are allowed in geo_intersects" ∨
      (GeoBatchIntersects P io input iv n rvs).handle.pStrErr =
        some "Unsupported data type for geo intersection contexts") →
      (GeoBatchIntersects P io input iv n rvs).contextRan = false ∧
      (GeoBatchIntersects P io input iv n rvs).geoPassIssued = false) ∧
    ((GeoBatchIntersects P io input iv n rvs).handle.pStrErr =
        some "only support up to 8 foreign tables" →
      (GeoBatchIntersects P io input iv n rvs).geoPassIssued = true) := by
  rcases geoBind_cases P io input iv n rvs with
    ⟨msg, hmsg, hb⟩ | hb | hb
  · refine ⟨fun _ => ?_, fun _ => ?_, fun h => ?_⟩
    · unfold GeoBatchIntersects
      rw [hb]
      exact ⟨rfl, rfl⟩
    · unfold GeoBatchIntersects
      rw [hb]
      exact ⟨rfl, rfl⟩
    · exfalso
      unfold GeoBatchIntersects at h
      rw [hb] at h
      simp only [Option.some.injEq] at h
      rcases hmsg with hm | hm <;> rw [hm] at h <;> exact absurd h (by decide)
  · refine ⟨fun h => ?_, fun h => ?_, fun h => ?_⟩
    · exfalso
      unfold GeoBatchIntersects at h
      rw [hb] at h
      exact h rfl
    · exfalso
      unfold GeoBatchIntersects at h
      rw [hb] at h
      rcases h with h | h <;> exact absurd h (by simp)
    · exfalso
      unfold GeoBatchIntersects at h
      rw [hb] at h
      exact absurd h (by simp)
  · refine ⟨fun h => ?_, fun h => ?_, fun _ => ?_⟩
    · unfold GeoBatchIntersects at h ⊢
      rw [hb] at h ⊢
      cases hres : (GeoIntersectionContextRun P io iv n rvs).res with
      | ok cnt =>
        rw [hres] at h
        exact absurd rfl h
      | error msg =>
        exact geoRun_error_vectors P io iv n rvs msg hres
    · exfalso
      unfold GeoBatchIntersects at h
      rw [hb] at h
      cases hres : (GeoIntersectionContextRun P io iv n rvs).res with
      | ok cnt =>
        rw [hres] at h
        rcases h with h | h <;> exact absurd h (by simp)
      | error msg =>
        rw [hres] at h
        have hm := geoRun_error_msg P io iv n rvs msg hres
        subst hm
        rcases h with h | h
        · have heq : (some "only support up to 8 foreign tables" :
              Option String) =
              some "only geo point column are allowed in geo_intersects" := h
          exact absurd heq (by decide)
        · have heq : (some "only support up to 8 foreign tables" :
              Option String) =
              some "Unsupported data type for geo intersection contexts" := h
          exact absurd heq (by decide)
    · unfold GeoBatchIntersects
      rw [hb]

/-- Witness for C5 (amended): at a nine-foreign-table call that reaches the
context, the envelope carries the arity error and the geo pass was issued. -/
theorem geo_error_sequencing_witness :
    (GeoBatchIntersects (fun _ => 0) true
      (InputVector.vp liveGeoSlice)
      [0, 1, 2] 9 []).geoPassIssued = true :=
  (geo_error_sequencing (fun _ => 0) true
    (InputVector.vp liveGeoSlice)
    [0, 1, 2] 9 []).2.2 (by decide)

/-- C5 counterexample: a call that raises the arity error (one of the three
error classes) has nevertheless already issued the geo intersection pass,
contradicting the claim that the error is raised before any device work. -/
theorem geo_error_after_device_work_counterexample :
    (GeoBatchIntersects (fun _ => 0) true
      (InputVector.vp liveGeoSlice)
      [0, 1, 2] 9 []).handle.pStrErr =
        some "only support up to 8 foreign tables" ∧
    (GeoBatchIntersects (fun _ => 0) true
      (InputVector.vp liveGeoSlice)
      [0, 1, 2] 9 []).geoPassIssued = true := by
  decide

/-- C6: transformMeasureOutput succeeds, delegating to the typed transform,
exactly for the supported scalar set int32, uint32, float32, int64 and
float64, and throws the invalid-argument unsupported-data-type error for
every other tag, for every functor arity (in particular the instantiated
arities 1 and 2). -/
theorem transformMeasureOutput_type_coverage (NInput : Nat)
    (transformFn : DataType → Int) (output : MeasureOutputVector) :
    transformMeasureOutput NInput transformFn output =
      (if measureSupported output.DataType then
        Except.ok (transformFn output.DataType)
      else Except.error "Unsupported data type for MeasureOutput") := by
  rcases output with ⟨dt, agg⟩
  cases dt <;> rfl

/-- C7: for every geo input, direct or foreign, whose declared data type is
not the geo-point type, bind throws the invalid-argument message, and the
call aborts with the context never entered, no geo pass issued, and the
index vector and foreign vectors unmodified. -/
theorem geo_bind_type_error (P : Nat → Int) (io : Bool) (iv : List Nat)
    (n : Int) (rvs : List (List RecordID)) (slice : VectorPartySlice)
    (column : ForeignColumnVector)
    (hs : slice.DataType ≠ DataType.GeoPoint)
    (hc : column.DataType ≠ DataType.GeoPoint) :
    (GeoBatchIntersects P io (InputVector.vp slice) iv n rvs =
      { handle := { res := 0, pStrErr := some "only geo point column are allowed in geo_intersects" },
        contextRan := false, geoPassIssued := false,
        indexVectorOut := iv, foreignOut := rvs }) ∧
    (GeoBatchIntersects P io (InputVector.foreignVP column) iv n rvs =
      { handle := { res := 0, pStrErr := some "only geo point column are allowed in geo_intersects" },
        contextRan := false, geoPassIssued := false,
        indexVectorOut := iv, foreignOut := rvs }) := by
  constructor
  · simp [GeoBatchIntersects, geoFilterBind, hs]
  · simp [GeoBatchIntersects, geoFilterBind, hc]

/-- Witness for C7 at a concrete non-geo-point direct input. -/
theorem geo_bind_type_error_witness :
    GeoBatchIntersects (fun _ => 0) true (InputVector.vp int32Slice)
      [1, 2] 0 [] =
      { handle := { res := 0, pStrErr := some "only geo point column are allowed in geo_intersects" },
        contextRan := false, geoPassIssued := false,
        indexVectorOut := [1, 2], foreignOut := [] } :=
  (geo_bind_type_error (fun _ => 0) true [1, 2] 0 [] int32Slice
    int32ForeignColumn (by decide) (by decide)).1

/-- C8: for a geo-point direct input whose base pointer is null, bind
returns zero rows immediately: the context never runs, no geo pass is
issued, the index vector and foreign vectors are untouched, and the
envelope carries no error. -/
theorem geo_bind_null_baseptr_short_circuit (P : Nat → Int) (io : Bool)
    (iv : List Nat) (n : Int) (rvs : List (List RecordID))
    (slice : VectorPartySlice) (hdt : slice.DataType = DataType.GeoPoint)
    (hnull : slice.BasePtrIsNull = true) :
    GeoBatchIntersects P io (InputVector.vp slice) iv n rvs =
      { handle := { res := 0, pStrErr := none }, contextRan := false,
        geoPassIssued := false, indexVectorOut := iv, foreignOut := rvs } := by
  simp [GeoBatchIntersects, geoFilterBind, hdt, hnull]

/-- Witness for C8 at a concrete null-base-pointer geo-point input. -/
theorem geo_bind_null_baseptr_short_circuit_witness :
    GeoBatchIntersects (fun _ => 0) true (InputVector.vp nullBaseGeoSlice)
      [3, 4] 5 [] =
      { handle := { res := 0, pStrErr := none }, contextRan := false,
        geoPassIssued := false, indexVectorOut := [3, 4], foreignOut := [] } :=
  geo_bind_null_baseptr_short_circuit (fun _ => 0) true [3, 4] 5 []
    nullBaseGeoSlice (by decide) (by decide)

/-- C10: in bind the geo-point type check precedes the null-base-pointer
short-circuit: a direct input whose data type is not geo-point throws the
invalid-argument error even when its base pointer is null, so the zero-row
short-circuit applies only to geo-point typed direct inputs. -/
theorem geo_bind_type_check_before_null_check (P : Nat → Int) (io : Bool)
    (iv : List Nat) (n : Int) (rvs : List (List RecordID))
    (slice : VectorPartySlice) (hs : slice.DataType ≠ DataType.GeoPoint)
    (_hnull : slice.BasePtrIsNull = true) :
    GeoBatchIntersects P io (InputVector.vp slice) iv n rvs =
      { handle := { res := 0, pStrErr := some "only geo point column are allowed in geo_intersects" },
        contextRan := false, geoPassIssued := false,
        indexVectorOut := iv, foreignOut := rvs } := by
  simp [GeoBatchIntersects, geoFilterBind, hs]

/-- Witness for C10 at a concrete non-geo-point input whose base pointer
is null. -/
theorem geo_bind_type_check_before_null_check_witness :
    GeoBatchIntersects (fun _ => 0) true (InputVector.vp int32Slice)
      [9] 0 [] =
      { handle := { res := 0, pStrErr := some "only geo point column are allowed in geo_intersects" },
        contextRan := false, geoPassIssued := false,
        indexVectorOut := [9], foreignOut := [] } :=
  geo_bind_type_check_before_null_check (fun _ => 0) true [9] 0 []
    int32Slice (by decide) (by decide)

end AresGeo
